import Mathlib

/-!
Verification of the stage-routing workflow engine of the multi-agent RFP
response automation repository.

The Python sources are shallowly embedded:
* `agents/state.py`      → `WorkflowStep`, `NodeName`, `Message`, `AgentState`,
                           `create_initial_state`, `get_last_ai_message_content`
* `agents/graph.py`      → `route_from_main`, `route_from_sales`,
                           `route_from_technical`, `route_from_pricing`, the
                           compiled graph's executor loop (`runLoop`)
* `agents/sales_agent/tools.py`     → `qualify_rfp_tool`, `prioritize_rfps_tool`
* `agents/sales_agent/node.py`      → `sales_agent_node`
* `agents/technical_agent/tools.py` → `normalize_value`, `derive_product_field`,
                           `score_catalog_product`, `match_oem_products`,
                           `build_comparison_table`
* `agents/technical_agent/node.py`  → `technical_agent_node`
* `backend/core/memory_manager.py`  → `AgentMemoryManager` operations
* `backend/api/chat.py`  → `chatTurn`, `clearSessionEndpoint`, `getStateEndpoint`

External collaborators (the LLM, the RFP scan source, the regex requirement
extractor) are abstracted as explicit inputs, as the spec §6 treats them.
Python dictionaries are modelled as association lists observed through lookup;
Python machine-independent ints are `Int`; optional / nullable values are
`Option`.
-/

/-- `WorkflowStep` constants from `agents/state.py`. -/
inductive WorkflowStep where
  | IDLE
  | SCANNING
  | WAITING_USER
  | ANALYZING
  | PRICING
  | COMPLETE
  | ERROR
deriving DecidableEq, Repr

/-- `NodeName` constants from `agents/state.py`.  In Python these are strings;
every write in the sources uses one of these constants. -/
inductive NodeName where
  | main_agent
  | sales_agent
  | technical_agent
  | pricing_agent
  | wait_for_user
  | END
deriving DecidableEq, Repr

/-- Message roles (`HumanMessage` / `AIMessage` / `SystemMessage` from
langchain). -/
inductive Role where
  | user
  | assistant
  | system
deriving DecidableEq, Repr

/-- One entry of the `messages` channel of `AgentState`. -/
structure Message where
  role : Role
  content : String
deriving DecidableEq, Repr

def userMessage (content : String) : Message := ⟨Role.user, content⟩

def assistantMessage (content : String) : Message := ⟨Role.assistant, content⟩

/-- Association-list lookup: the observation through which Python dicts are
modelled. -/
def alistLookup {κ α : Type} [BEq κ] : List (κ × α) → κ → Option α
  | [], _ => none
  | (k', v) :: t, k => if k' == k then some v else alistLookup t k

/-- Removing a key (`del d[k]` / `d.pop(k, None)`). -/
def alistRemove {κ α : Type} [BEq κ] (l : List (κ × α)) (k : κ) : List (κ × α) :=
  l.filter (fun p => !(p.1 == k))

/-- Inserting or overwriting a key (`d[k] = v`). -/
def alistUpsert {κ α : Type} [BEq κ] (l : List (κ × α)) (k : κ) (v : α) : List (κ × α) :=
  (k, v) :: alistRemove l k

/-- Boolean check that `needle` occurs as a contiguous run inside `hay`
(Python's `needle in hay` on lists/strings). -/
def listContainsRun {α : Type} [BEq α] (needle : List α) : List α → Bool
  | [] => needle.isEmpty
  | a :: t => needle.isPrefixOf (a :: t) || listContainsRun needle t

/-- Python's `needle in hay` for strings. -/
def strContainsRun (hay needle : String) : Bool :=
  listContainsRun needle.toList hay.toList

/-- One RFP record as found in `data/mock_rfps.json` and threaded through the
sales tools.  The optional fields are keys some call sites probe with
`dict.get` but which the mock records may not carry; `priority_score` and
`qualification` are added by `prioritize_rfps_tool`. -/
structure RFP where
  rfp_id : String
  title : String
  description : String
  category : String
  location : String
  tender_value : Int
  days_remaining : Int
  id : Option String := none
  client : Option String := none
  estimated_value : Option Int := none
  value : Option Int := none
  submission_deadline : Option String := none
  priority_score : Option Int := none
deriving DecidableEq, Repr

/-- The qualification criteria dict consumed by `qualify_rfp_tool`
(`criteria.get` defaults reproduced as field defaults). -/
structure Criteria where
  min_tender_value : Int := 1000000
  min_days_remaining : Int := 7
  preferred_locations : List String := []
deriving DecidableEq, Repr

/-- The record built by `qualify_rfp_tool`. -/
structure Qualification where
  rfp_id : String
  qualified : Bool
  score : Int
  reasons : List String
deriving DecidableEq, Repr

/-- The timeline block of `qualify_rfp_tool`: points awarded plus the reason
string.  The insufficient-time branch awards zero points (its
`qualified = False` assignment is handled in `qualify_rfp_tool`). -/
def timelineAssessment (days minDays : Int) : Int × String :=
  if days < minDays then
    (0, "Insufficient time: " ++ toString days ++ " days (need " ++ toString minDays ++ "+)")
  else if days < 14 then
    (15, "Tight timeline: " ++ toString days ++ " days")
  else if days < 30 then
    (25, "Adequate time: " ++ toString days ++ " days")
  else
    (30, "Good timeline: " ++ toString days ++ " days")

/-- The tender-value block of `qualify_rfp_tool`. -/
def valueAssessment (tv minValue : Int) : Int × String :=
  if tv < minValue then
    (10, "Low value: " ++ toString tv)
  else if tv < minValue * 2 then
    (25, "Meets minimum: " ++ toString tv)
  else if tv < minValue * 5 then
    (35, "Good value: " ++ toString tv)
  else
    (40, "High value: " ++ toString tv)

/-- The location block of `qualify_rfp_tool`. -/
def locationAssessment (location : String) (prefs : List String) : Int × String :=
  match prefs with
  | [] => (30, "Location: " ++ location)
  | _ =>
      if prefs.any (fun loc => strContainsRun location.toLower loc.toLower) then
        (30, "Preferred location: " ++ location)
      else
        (10, "Non-preferred location: " ++ location)

/-- `qualify_rfp_tool` from `agents/sales_agent/tools.py`.  The three scoring
blocks run in sequence; the `qualified = False` assignment of the
insufficient-time branch is overwritten by the final
`qualification['qualified'] = qualification['score'] >= 60`, which is the
only assignment to `qualified` that survives. -/
def qualify_rfp_tool (rfp : RFP) (criteria : Criteria) : Qualification :=
  let timelinePart := timelineAssessment rfp.days_remaining criteria.min_days_remaining
  let valuePart := valueAssessment rfp.tender_value criteria.min_tender_value
  let locationPart := locationAssessment rfp.location criteria.preferred_locations
  let score := timelinePart.1 + valuePart.1 + locationPart.1
  { rfp_id := rfp.rfp_id
    qualified := decide (score ≥ 60)
    score := score
    reasons := [timelinePart.2, valuePart.2, locationPart.2] }

/-- Stable descending insertion by an integer-like key: the element being
inserted goes in front of every later element with key less than or equal to
its own, reproducing the stability of Python's `list.sort(..., reverse=True)`. -/
def insertDescBy {α κ : Type} [LinearOrder κ] (key : α → κ) (x : α) : List α → List α
  | [] => [x]
  | y :: ys => if key y ≤ key x then x :: y :: ys else y :: insertDescBy key x ys

/-- Stable descending sort by key (`list.sort(key=..., reverse=True)`). -/
def sortDescBy {α κ : Type} [LinearOrder κ] (key : α → κ) : List α → List α
  | [] => []
  | x :: xs => insertDescBy key x (sortDescBy key xs)

/-- `prioritize_rfps_tool` from `agents/sales_agent/tools.py`: keep the
qualified records, attach `priority_score`, sort descending by it, take the
top `n`. -/
def prioritize_rfps_tool (rfps : List RFP) (qualifications : List Qualification)
    (top_n : Nat) : List RFP :=
  let qualPairs := qualifications.map (fun q => (q.rfp_id, q))
  let scored := rfps.filterMap (fun rfp =>
    match alistLookup qualPairs rfp.rfp_id with
    | some q => if q.qualified then some { rfp with priority_score := some q.score } else none
    | none => none)
  (sortDescBy (fun r => r.priority_score.getD 0) scored).take top_n

/-- The eight spec fields of `SPEC_FIELDS` in `agents/technical_agent/tools.py`. -/
inductive SpecField where
  | voltage_rating
  | conductor
  | size
  | cores
  | insulation
  | armour
  | cable_type
  | application
deriving DecidableEq, Repr

def SPEC_FIELDS : List SpecField :=
  [SpecField.voltage_rating, SpecField.conductor, SpecField.size, SpecField.cores,
   SpecField.insulation, SpecField.armour, SpecField.cable_type, SpecField.application]

/-- A Python value stored under a spec-field key: `None`, an int (`cores`), or
a string (every other field). -/
inductive PyVal where
  | vnone
  | vint (n : Int)
  | vstr (s : String)
deriving DecidableEq, Repr

/-- Python truthiness of a `PyVal` (`if req_value:`). -/
def pyTruthy : PyVal → Bool
  | PyVal.vnone => false
  | PyVal.vint n => !(n == 0)
  | PyVal.vstr s => !(s == "")

/-- `normalize_value` from `agents/technical_agent/tools.py`: `None` stays
`None`, numbers are stringified, strings are stripped and lower-cased. -/
def normalize_value : PyVal → Option String
  | PyVal.vnone => none
  | PyVal.vint n => some (toString n)
  | PyVal.vstr s => some s.trim.toLower

/-- A specifications dict / requirements dict: keys may be absent, and a
present key may hold Python `None` (`PyVal.vnone`). -/
abbrev SpecDict : Type := List (SpecField × PyVal)

/-- `d.get(field)`: the value when the key is present, `None` otherwise. -/
def dictGet (d : SpecDict) (f : SpecField) : PyVal :=
  match alistLookup d f with
  | some v => v
  | none => PyVal.vnone

/-- `derive_product_field` from `agents/technical_agent/tools.py`. -/
def derive_product_field (specs : SpecDict) (f : SpecField) : PyVal :=
  match alistLookup specs f with
  | some v => v
  | none =>
      if f = SpecField.cable_type then dictGet specs SpecField.insulation
      else PyVal.vnone

/-- The `is_match` computation inside `score_catalog_product`:
`normalize_value(req) == normalize_value(spec) if req_value else False`. -/
def isMatchOn (req spec : PyVal) : Bool :=
  match pyTruthy req with
  | true => normalize_value req == normalize_value spec
  | false => false

/-- One row of the `comparisons` list built by `score_catalog_product`. -/
structure Comparison where
  field : SpecField
  requirement : PyVal
  product : PyVal
  isMatch : Bool
deriving DecidableEq, Repr

/-- A catalog product (`data/catalog.json` records). -/
structure Product where
  sku : String
  product_name : String
  price_per_km : Option Int := none
  specifications : SpecDict
deriving DecidableEq, Repr

/-- The record returned by `score_catalog_product`.  `match_score` is
`round(score / 8 * 100, 1)`; since the raw score is an integer count out of 8,
the percentage is an exact multiple of 12.5, held here exactly in tenths of a
percent (`match_score_tenths = count * 125`, so 1000 tenths = 100%). -/
structure ScoredProduct where
  sku : String
  product_name : String
  price_per_km : Option Int
  specifications : SpecDict
  match_score_tenths : Nat
  matched_fields : SpecDict
  comparison : List Comparison
deriving DecidableEq, Repr

/-- `score_catalog_product` from `agents/technical_agent/tools.py`. -/
def score_catalog_product (product : Product) (requirements : SpecDict) : ScoredProduct :=
  let specs := product.specifications
  let fieldMatch := fun f => isMatchOn (dictGet requirements f) (derive_product_field specs f)
  let count := SPEC_FIELDS.countP fieldMatch
  { sku := product.sku
    product_name := product.product_name
    price_per_km := product.price_per_km
    specifications := specs
    match_score_tenths := count * 125
    matched_fields := SPEC_FIELDS.filterMap (fun f =>
      if fieldMatch f then some (f, derive_product_field specs f) else none)
    comparison := SPEC_FIELDS.map (fun f =>
      { field := f
        requirement := dictGet requirements f
        product := derive_product_field specs f
        isMatch := fieldMatch f }) }

/-- `match_oem_products` from `agents/technical_agent/tools.py`: score every
catalog product, sort descending by `match_score`, return the top `n`. -/
def match_oem_products (catalog : List Product) (requirements : SpecDict)
    (top_n : Nat) : List ScoredProduct :=
  (sortDescBy (fun p => p.match_score_tenths)
    (catalog.map (fun p => score_catalog_product p requirements))).take top_n

/-- One row of `build_comparison_table`: the field plus, per recommended
product SKU, `specs.get(field) or derive_product_field(specs, field)`. -/
structure CompRow where
  field : SpecField
  entries : List (String × PyVal)
deriving DecidableEq, Repr

/-- `build_comparison_table` from `agents/technical_agent/tools.py`. -/
def build_comparison_table (recommendations : List ScoredProduct) : List CompRow :=
  SPEC_FIELDS.map (fun f =>
    { field := f
      entries := recommendations.map (fun p =>
        let direct := dictGet p.specifications f
        (p.sku, if pyTruthy direct then direct else derive_product_field p.specifications f)) })

/-- The `technical_analysis` record assembled by `technical_agent_node`. -/
structure TechnicalAnalysis where
  rfp_id : String
  analysis : String
  requirements : SpecDict
  recommended_products : List ScoredProduct
  comparison_table : List CompRow
deriving DecidableEq, Repr

/-- `AgentState` from `agents/state.py` (the TypedDict threaded through every
stage).  `messages` is the `operator.add` channel; every other field is
overwritten by the latest delta.  `agent_reasoning` / `tool_calls_made` hold
opaque log entries, and `pricing_analysis` is kept as opaque text since
`pricing_agent/node.py` is not part of the available sources. -/
structure AgentState where
  messages : List Message
  current_step : WorkflowStep
  next_node : NodeName
  rfps_identified : List RFP
  selected_rfp : Option RFP
  user_selected_rfp_id : Option String
  technical_analysis : Option TechnicalAnalysis
  pricing_analysis : Option String
  final_response : Option String
  report_path : Option String
  report_url : Option String
  product_summary : Option String
  test_summary : Option String
  waiting_for_user : Bool
  user_prompt : Option String
  agent_reasoning : List String
  tool_calls_made : List String
  session_id : String
  error : Option String
deriving DecidableEq, Repr

/-- `create_initial_state` from `agents/state.py`. -/
def create_initial_state (session_id user_message : String) : AgentState :=
  { messages := [userMessage user_message]
    current_step := WorkflowStep.IDLE
    next_node := NodeName.main_agent
    rfps_identified := []
    selected_rfp := none
    user_selected_rfp_id := none
    technical_analysis := none
    pricing_analysis := none
    final_response := none
    report_path := none
    report_url := none
    product_summary := none
    test_summary := none
    waiting_for_user := false
    user_prompt := none
    agent_reasoning := []
    tool_calls_made := []
    session_id := session_id
    error := none }

/-- `get_last_ai_message_content` from `agents/state.py`. -/
def get_last_ai_message_content (state : AgentState) : String :=
  match state.messages.reverse.find? (fun m => m.role == Role.assistant) with
  | some m => m.content
  | none => "Processing your request..."

/-- `has_error` from `agents/state.py`. -/
def has_error (state : AgentState) : Bool :=
  !(state.error == none)

/-- A partial state update returned by a stage handler.  A `none` field was
absent from the returned dict and leaves the state unchanged; `messages`
entries are appended by the `operator.add` channel reducer. -/
structure StateDelta where
  messages : List Message := []
  current_step : Option WorkflowStep := none
  next_node : Option NodeName := none
  rfps_identified : Option (List RFP) := none
  selected_rfp : Option (Option RFP) := none
  user_selected_rfp_id : Option (Option String) := none
  technical_analysis : Option (Option TechnicalAnalysis) := none
  pricing_analysis : Option (Option String) := none
  final_response : Option (Option String) := none
  report_path : Option (Option String) := none
  report_url : Option (Option String) := none
  product_summary : Option (Option String) := none
  test_summary : Option (Option String) := none
  waiting_for_user : Option Bool := none
  user_prompt : Option (Option String) := none
  agent_reasoning : Option (List String) := none
  tool_calls_made : Option (List String) := none
  session_id : Option String := none
  error : Option (Option String) := none
deriving DecidableEq, Repr

/-- The langgraph channel update applied after each node returns: append to
the `messages` channel, overwrite every other returned field. -/
def mergeDelta (s : AgentState) (d : StateDelta) : AgentState :=
  { messages := s.messages ++ d.messages
    current_step := d.current_step.getD s.current_step
    next_node := d.next_node.getD s.next_node
    rfps_identified := d.rfps_identified.getD s.rfps_identified
    selected_rfp := d.selected_rfp.getD s.selected_rfp
    user_selected_rfp_id := d.user_selected_rfp_id.getD s.user_selected_rfp_id
    technical_analysis := d.technical_analysis.getD s.technical_analysis
    pricing_analysis := d.pricing_analysis.getD s.pricing_analysis
    final_response := d.final_response.getD s.final_response
    report_path := d.report_path.getD s.report_path
    report_url := d.report_url.getD s.report_url
    product_summary := d.product_summary.getD s.product_summary
    test_summary := d.test_summary.getD s.test_summary
    waiting_for_user := d.waiting_for_user.getD s.waiting_for_user
    user_prompt := d.user_prompt.getD s.user_prompt
    agent_reasoning := d.agent_reasoning.getD s.agent_reasoning
    tool_calls_made := d.tool_calls_made.getD s.tool_calls_made
    session_id := d.session_id.getD s.session_id
    error := d.error.getD s.error }

/-- The four graph nodes registered by `create_workflow` in `agents/graph.py`. -/
inductive GraphNode where
  | main_agent
  | sales_agent
  | technical_agent
  | pricing_agent
deriving DecidableEq, Repr

/-- The value returned by a conditional-edge routing function: a registered
node name or the `END` sentinel. -/
inductive Target where
  | node (g : GraphNode)
  | terminal
deriving DecidableEq, Repr

/-- `route_from_main` from `agents/graph.py`. -/
def route_from_main (state : AgentState) : Target :=
  match state.next_node with
  | NodeName.sales_agent => Target.node GraphNode.sales_agent
  | NodeName.technical_agent => Target.node GraphNode.technical_agent
  | _ => Target.terminal

/-- `route_from_sales` from `agents/graph.py`: unconditionally `END`. -/
def route_from_sales (_ : AgentState) : Target :=
  Target.terminal

/-- `route_from_technical` from `agents/graph.py`. -/
def route_from_technical (state : AgentState) : Target :=
  match state.next_node with
  | NodeName.pricing_agent => Target.node GraphNode.pricing_agent
  | _ => Target.terminal

/-- `route_from_pricing` from `agents/graph.py`. -/
def route_from_pricing (state : AgentState) : Target :=
  match state.next_node with
  | NodeName.main_agent => Target.node GraphNode.main_agent
  | _ => Target.terminal

/-- The conditional edge attached to each node by `create_workflow`. -/
def routeFrom : GraphNode → AgentState → Target
  | GraphNode.main_agent, s => route_from_main s
  | GraphNode.sales_agent, s => route_from_sales s
  | GraphNode.technical_agent, s => route_from_technical s
  | GraphNode.pricing_agent, s => route_from_pricing s

/-- The `next_node` values for which a stage's routing function returns a
node rather than falling through to `END` (read off the match arms of the
four routing functions). -/
def declaredSuccessors : GraphNode → List NodeName
  | GraphNode.main_agent => [NodeName.sales_agent, NodeName.technical_agent]
  | GraphNode.sales_agent => []
  | GraphNode.technical_agent => [NodeName.pricing_agent]
  | GraphNode.pricing_agent => [NodeName.main_agent]

/-- Outcome of one LLM collaborator invocation: the response text, or the
exception message when the remote call raises. -/
inductive LLMResult where
  | ok (content : String)
  | err (msg : String)
deriving DecidableEq, Repr

/-- The criteria literal hard-coded in `sales_agent_node`. -/
def salesNodeCriteria : Criteria :=
  { min_tender_value := 1000000
    min_days_remaining := 7
    preferred_locations := [] }

/-- The qualification pass of `sales_agent_node`: qualify every scanned
record, then take the top five. -/
def salesTop (scanned : List RFP) : List RFP :=
  prioritize_rfps_tool scanned (scanned.map (fun r => qualify_rfp_tool r salesNodeCriteria)) 5

/-- `sales_agent_node` from `agents/sales_agent/node.py`.  The scan collaborator
result and the LLM outcome are explicit inputs; an LLM failure lands in the
node's `except` handler. -/
def sales_agent_node (scanned : List RFP) (llm : LLMResult) (_ : AgentState) : StateDelta :=
  if scanned.isEmpty then
    { messages := [assistantMessage "No RFPs found matching your criteria. Try different search terms."]
      next_node := some NodeName.END
      current_step := some WorkflowStep.COMPLETE }
  else
    let top := salesTop scanned
    if top.isEmpty then
      { messages := [assistantMessage "No RFPs qualified based on criteria. Try adjusting your requirements."]
        next_node := some NodeName.END
        current_step := some WorkflowStep.COMPLETE }
    else
      match llm with
      | LLMResult.ok content =>
          { messages := [assistantMessage content]
            rfps_identified := some top
            current_step := some WorkflowStep.WAITING_USER
            next_node := some NodeName.END }
      | LLMResult.err msg =>
          { messages := [assistantMessage ("Error: " ++ msg)]
            next_node := some NodeName.END
            current_step := some WorkflowStep.ERROR }

/-- `technical_agent_node` from `agents/technical_agent/node.py`.  The regex
requirement extractor (spec §6 collaborator) and the catalog load are explicit
inputs; the LLM outcome covers the `except` handler.  Note that neither the
missing-selection branch nor the exception branch writes the `error` field. -/
def technical_agent_node (llm : LLMResult) (requirements : SpecDict)
    (catalog : List Product) (state : AgentState) : StateDelta :=
  match state.selected_rfp with
  | none =>
      { messages := [assistantMessage "No RFP selected. Please select an RFP first."]
        next_node := some NodeName.END
        current_step := some WorkflowStep.ERROR }
  | some rfp =>
      let recommendations := if catalog.isEmpty then [] else match_oem_products catalog requirements 3
      let comparison_table := if recommendations.isEmpty then [] else build_comparison_table recommendations
      match llm with
      | LLMResult.ok content =>
          { messages := [assistantMessage content]
            technical_analysis := some (some
              { rfp_id := rfp.rfp_id
                analysis := content
                requirements := requirements
                recommended_products := recommendations
                comparison_table := comparison_table })
            current_step := some WorkflowStep.PRICING
            next_node := some NodeName.pricing_agent }
      | LLMResult.err msg =>
          { messages := [assistantMessage ("Error analyzing RFP: " ++ msg)]
            next_node := some NodeName.END
            current_step := some WorkflowStep.ERROR }

/-- The intake stage's routing decision for one invocation. -/
inductive IntakeDecision where
  | toDiscovery
  | toAssessment
  | terminate (reply : String)
deriving DecidableEq, Repr

/-- Modelled from the spec: `main_agent/node.py` is not among the available
sources.  Spec §4.1 `intake`: "inspects the latest user message and the
current step to decide which downstream stage should run next; may itself
terminate the turn (e.g., produce a direct reply) without delegating."  The
decision is abstracted as an input; the delta only sets the routing hint (and
a direct reply when terminating). -/
def main_agent_node (decision : IntakeDecision) (_ : AgentState) : StateDelta :=
  match decision with
  | IntakeDecision.toDiscovery => { next_node := some NodeName.sales_agent }
  | IntakeDecision.toAssessment => { next_node := some NodeName.technical_agent }
  | IntakeDecision.terminate reply =>
      { messages := [assistantMessage reply]
        next_node := some NodeName.END }

/-- Modelled from the spec: `pricing_agent/node.py` is not among the available
sources.  Spec §4.1 `valuation`: "consumes the prior stage's derived analysis
to compute pricing; routes either back to `intake` (if the flow loops for
further refinement) or TERMINAL." -/
def pricing_agent_node (loopBack : Bool) (pricingText : String) (_ : AgentState) : StateDelta :=
  { pricing_analysis := some (some pricingText)
    current_step := some WorkflowStep.COMPLETE
    next_node := some (if loopBack then NodeName.main_agent else NodeName.END) }

/-- One handler per registered graph node. -/
structure Behavior where
  intake : AgentState → StateDelta
  discovery : AgentState → StateDelta
  assessment : AgentState → StateDelta
  valuation : AgentState → StateDelta

/-- Dispatch from node name to handler, as registered by
`workflow.add_node` in `create_workflow`. -/
def nodeStep (b : Behavior) : GraphNode → AgentState → StateDelta
  | GraphNode.main_agent, s => b.intake s
  | GraphNode.sales_agent, s => b.discovery s
  | GraphNode.technical_agent, s => b.assessment s
  | GraphNode.pricing_agent, s => b.valuation s

/-- A `Behavior` built from the four embedded stage handlers with their
collaborator outcomes fixed. -/
def mkBehavior (decision : IntakeDecision) (scanned : List RFP)
    (salesLLM technicalLLM : LLMResult) (requirements : SpecDict)
    (catalog : List Product) (loopBack : Bool) (pricingText : String) : Behavior :=
  { intake := main_agent_node decision
    discovery := sales_agent_node scanned salesLLM
    assessment := technical_agent_node technicalLLM requirements catalog
    valuation := pricing_agent_node loopBack pricingText }

/-- The failure the compiled-graph executor raises when the per-run step
budget is exhausted (`GraphRecursionError`). -/
inductive EngineError where
  | recursionLimitExceeded
deriving DecidableEq, Repr

/-- The langgraph executor loop for this graph, driven by the conditional
edges of `create_workflow`: invoke the current node, merge its delta, route,
stop on `END`; each unit of fuel admits one node invocation, and exhausting
the budget raises the recursion error. -/
def runLoop (b : Behavior) : Nat → GraphNode → AgentState → Except EngineError AgentState
  | 0, _, _ => Except.error EngineError.recursionLimitExceeded
  | fuel + 1, g, s =>
      let s' := mergeDelta s (nodeStep b g s)
      match routeFrom g s' with
      | Target.terminal => Except.ok s'
      | Target.node g' => runLoop b fuel g' s'

/-- The number of node invocations the loop performs before halting (by
termination or by budget exhaustion). -/
def runCount (b : Behavior) : Nat → GraphNode → AgentState → Nat
  | 0, _, _ => 0
  | fuel + 1, g, s =>
      let s' := mergeDelta s (nodeStep b g s)
      match routeFrom g s' with
      | Target.terminal => 1
      | Target.node g' => 1 + runCount b fuel g' s'

/-- langgraph's default `recursion_limit`; `create_workflow` compiles the
graph without overriding it and the `ainvoke` call in `backend/api/chat.py`
passes only `thread_id` in its config. -/
def RECURSION_LIMIT : Nat := 25

/-- One engine run: `rfp_workflow.ainvoke(state, ...)`, entering at the
`main_agent` entry point set by `create_workflow`. -/
def engineRun (b : Behavior) (s : AgentState) : Except EngineError AgentState :=
  runLoop b RECURSION_LIMIT GraphNode.main_agent s

/-- Stage invocations performed by one engine run. -/
def engineRunCount (b : Behavior) (s : AgentState) : Nat :=
  runCount b RECURSION_LIMIT GraphNode.main_agent s

/-- One row of the append-only chat-message table written through
`drizzle_client.save_chat_message`. -/
structure DbMessage where
  session_id : String
  role : Role
  content : String
deriving DecidableEq, Repr

/-- The durable store behind `drizzle_client`: one serialized state per
session (`chat_sessions` table written by `save_chat_session`) plus the
append-only chat-message table. -/
structure Db where
  sessions : List (String × AgentState)
  messagesTable : List DbMessage
deriving DecidableEq, Repr

/-- The in-memory side of `AgentMemoryManager`: the per-session
`ConversationBufferWindowMemory` cache (observed as its message list) and the
keys of `last_sync`.  Timestamps carried by `last_sync` are irrelevant to the
claims and are dropped. -/
structure MemoryMgr where
  memory_cache : List (String × List Message)
  last_sync : List String
deriving DecidableEq, Repr

/-- The backend process state: durable store, memory manager, and the
in-memory `chat_sessions` dict from `backend/core/config.py` that
`backend/api/chat.py` maintains. -/
structure ServerState where
  db : Db
  memory : MemoryMgr
  chat_sessions : List (String × AgentState)
deriving DecidableEq, Repr

/-- `max_messages` of `AgentMemoryManager`. -/
def MAX_MESSAGES : Nat := 100

/-- The most recent `n` elements in order (`get_chat_messages(limit=n)`
returns the latest rows, which `_load_messages_from_db` re-reverses into
chronological order). -/
def listTakeLast {α : Type} (n : Nat) (l : List α) : List α :=
  l.drop (l.length - n)

/-- `_load_messages_from_db`: the session's rows from the append-only table,
oldest first, capped at `max_messages`. -/
def loadMessagesFromDb (db : Db) (sid : String) : List Message :=
  listTakeLast MAX_MESSAGES
    ((db.messagesTable.filter (fun m => m.session_id == sid)).map
      (fun m => ⟨m.role, m.content⟩))

/-- `AgentMemoryManager.get_memory`: return the cached memory, creating it
from the database rows on a cache miss. -/
def getMemory (srv : ServerState) (sid : String) : List Message × ServerState :=
  match alistLookup srv.memory.memory_cache sid with
  | some msgs => (msgs, srv)
  | none =>
      let msgs := loadMessagesFromDb srv.db sid
      (msgs,
        { srv with memory :=
            { srv.memory with memory_cache := alistUpsert srv.memory.memory_cache sid msgs } })

/-- `AgentMemoryManager.save_agent_state`: persist the state via
`drizzle_client.save_chat_session` and record the sync time. -/
def saveAgentState (srv : ServerState) (sid : String) (state : AgentState) : ServerState :=
  { srv with
      db := { srv.db with sessions := alistUpsert srv.db.sessions sid state }
      memory := { srv.memory with
        last_sync := sid :: srv.memory.last_sync.filter (fun k => !(k == sid)) } }

/-- `AgentMemoryManager.load_agent_state` via
`drizzle_client.load_chat_session`. -/
def loadAgentState (db : Db) (sid : String) : Option AgentState :=
  alistLookup db.sessions sid

/-- The basic state `_sync_session_state` writes when the 30-second sync
window has elapsed: a dict holding only empty `messages`, `current_step =
IDLE` and the session id; the remaining keys are absent and are modelled by
the defaults their readers' `dict.get` calls supply. -/
def basicSyncState (sid : String) : AgentState :=
  { messages := []
    current_step := WorkflowStep.IDLE
    next_node := NodeName.END
    rfps_identified := []
    selected_rfp := none
    user_selected_rfp_id := none
    technical_analysis := none
    pricing_analysis := none
    final_response := none
    report_path := none
    report_url := none
    product_summary := none
    test_summary := none
    waiting_for_user := false
    user_prompt := none
    agent_reasoning := []
    tool_calls_made := []
    session_id := sid
    error := none }

/-- `_sync_session_state`, with the elapsed-time condition abstracted into
the `syncDue` flag. -/
def syncSessionState (srv : ServerState) (sid : String) (syncDue : Bool) : ServerState :=
  if syncDue then saveAgentState srv sid (basicSyncState sid) else srv

/-- `AgentMemoryManager.add_user_message`: append to the cached memory,
append a row to the durable message table, then sync. -/
def addUserMessage (srv : ServerState) (sid content : String) (syncDue : Bool) : ServerState :=
  let (msgs, srv1) := getMemory srv sid
  let srv2 := { srv1 with
    memory := { srv1.memory with
      memory_cache := alistUpsert srv1.memory.memory_cache sid (msgs ++ [userMessage content]) }
    db := { srv1.db with
      messagesTable := srv1.db.messagesTable ++ [⟨sid, Role.user, content⟩] } }
  syncSessionState srv2 sid syncDue

/-- `AgentMemoryManager.add_ai_message` (metadata rows are opaque to the
claims and dropped). -/
def addAiMessage (srv : ServerState) (sid content : String) (syncDue : Bool) : ServerState :=
  let (msgs, srv1) := getMemory srv sid
  let srv2 := { srv1 with
    memory := { srv1.memory with
      memory_cache := alistUpsert srv1.memory.memory_cache sid (msgs ++ [assistantMessage content]) }
    db := { srv1.db with
      messagesTable := srv1.db.messagesTable ++ [⟨sid, Role.assistant, content⟩] } }
  syncSessionState srv2 sid syncDue

/-- The session's message log as the memory manager observes it
(`get_messages`, read through `get_memory` without keeping the cache-filling
side effect). -/
def messagesView (srv : ServerState) (sid : String) : List Message :=
  (getMemory srv sid).1

/-- `AgentMemoryManager.clear_memory`: drop the session from `memory_cache`
and `last_sync`.  The durable store is not touched. -/
def clearMemory (mm : MemoryMgr) (sid : String) : MemoryMgr :=
  { memory_cache := alistRemove mm.memory_cache sid
    last_sync := mm.last_sync.filter (fun k => !(k == sid)) }

/-- The `DELETE /api/chat/sessions/{session_id}` handler (`clear_session` in
`backend/api/chat.py`): `memory_manager.clear_memory` plus removal from the
in-memory `chat_sessions` dict. -/
def clearSessionEndpoint (srv : ServerState) (sid : String) : ServerState :=
  { srv with
      memory := clearMemory srv.memory sid
      chat_sessions := alistRemove srv.chat_sessions sid }

/-- The `POST /api/chat` handler (`chat` in `backend/api/chat.py`), for one
engine process whose langgraph checkpointer holds no prior state for the
thread (a fresh process).  Loads the stored state — replacing its `messages`
with just the incoming user message — or creates a fresh one, records the
user message in the memory manager, runs the workflow, and on success records
the assistant reply, persists the result and updates `chat_sessions`.  When
the run raises (`except` branch) nothing is persisted. -/
def chatTurn (b : Behavior) (srv : ServerState) (sid text : String)
    (syncDue1 syncDue2 : Bool) : ServerState × Except EngineError AgentState :=
  let state :=
    match loadAgentState srv.db sid with
    | some st => { st with messages := [userMessage text] }
    | none => create_initial_state sid text
  let srv1 := addUserMessage srv sid text syncDue1
  match engineRun b state with
  | Except.error e => (srv1, Except.error e)
  | Except.ok result =>
      let srv2 := addAiMessage srv1 sid (get_last_ai_message_content result) syncDue2
      let srv3 := saveAgentState srv2 sid result
      let srv4 := { srv3 with chat_sessions := alistUpsert srv3.chat_sessions sid result }
      (srv4, Except.ok result)

/-- The per-RFP summary dict built by `get_workflow_state`. -/
structure RfpSummary where
  id : String
  title : String
  client : Option String
  estimated_value : Option Int
  submission_deadline : Option String
  priority_score : Option Int
deriving DecidableEq, Repr

/-- `get_rfp_id` inside `get_workflow_state`:
`rfp.get("id") or rfp.get("rfp_id", "")` with Python falsiness of `""`. -/
def get_rfp_id (r : RFP) : String :=
  match r.id with
  | some s => if s == "" then r.rfp_id else s
  | none => r.rfp_id

/-- `rfp.get("estimated_value") or rfp.get("value")` with Python falsiness of
`0`. -/
def estimatedOrValue (r : RFP) : Option Int :=
  match r.estimated_value with
  | some v => if v == 0 then r.value else some v
  | none => r.value

def rfpSummaryOf (r : RFP) : RfpSummary :=
  { id := get_rfp_id r
    title := r.title
    client := r.client
    estimated_value := estimatedOrValue r
    submission_deadline := r.submission_deadline
    priority_score := r.priority_score }

/-- The abridged selected-RFP dict of `get_workflow_state`. -/
structure SelectedSummary where
  id : String
  title : String
  client : Option String
deriving DecidableEq, Repr

/-- The two response shapes of `GET /api/chat/state/{session_id}`. -/
inductive StateView where
  | notFound (session_id : String)
  | found (session_id : String) (current_step : WorkflowStep) (next_node : NodeName)
      (waiting_for_user : Bool) (rfps_identified : List RfpSummary)
      (selected_rfp : Option SelectedSummary) (report_url : Option String)
      (error : Option String)
deriving DecidableEq, Repr

/-- `get_workflow_state` from `backend/api/chat.py`: a read of the in-memory
`chat_sessions` dict projected into a summary. -/
def get_workflow_state (chatSessions : List (String × AgentState)) (sid : String) : StateView :=
  match alistLookup chatSessions sid with
  | none => StateView.notFound sid
  | some state =>
      StateView.found sid state.current_step state.next_node state.waiting_for_user
        (state.rfps_identified.map rfpSummaryOf)
        (state.selected_rfp.map (fun r => ⟨get_rfp_id r, r.title, r.client⟩))
        state.report_url state.error

/-- The `GET /api/chat/state/{session_id}` handler as a state-passing
endpoint: it performs no write, so the server state it returns is the one it
received. -/
def getStateEndpoint (srv : ServerState) (sid : String) : StateView × ServerState :=
  (get_workflow_state srv.chat_sessions sid, srv)

/-! ## Helper lemmas -/

theorem mem_insertDescBy {α κ : Type} [LinearOrder κ] (key : α → κ) (x a : α) :
    ∀ l : List α, a ∈ insertDescBy key x l ↔ a = x ∨ a ∈ l
  | [] => by simp [insertDescBy]
  | y :: ys => by
      simp only [insertDescBy]
      split
      · simp [List.mem_cons]
      · simp only [List.mem_cons, mem_insertDescBy key x a ys]
        tauto

theorem sorted_insertDescBy {α κ : Type} [LinearOrder κ] (key : α → κ) (x : α) :
    ∀ l : List α, List.Sorted (fun a b => key b ≤ key a) l →
      List.Sorted (fun a b => key b ≤ key a) (insertDescBy key x l)
  | [], _ => by simp [insertDescBy]
  | y :: ys, h => by
      rw [List.sorted_cons] at h
      obtain ⟨hy, hys⟩ := h
      by_cases hk : key y ≤ key x
      · simp only [insertDescBy, if_pos hk, List.sorted_cons, List.mem_cons]
        refine ⟨?_, ?_, hys⟩
        · rintro b (rfl | hb)
          · exact hk
          · exact le_trans (hy b hb) hk
        · exact hy
      · simp only [insertDescBy, if_neg hk, List.sorted_cons]
        refine ⟨?_, sorted_insertDescBy key x ys hys⟩
        intro b hb
        rw [mem_insertDescBy] at hb
        rcases hb with rfl | hb
        · exact le_of_not_le hk
        · exact hy b hb

theorem sorted_sortDescBy {α κ : Type} [LinearOrder κ] (key : α → κ) :
    ∀ l : List α, List.Sorted (fun a b => key b ≤ key a) (sortDescBy key l)
  | [] => by simp [sortDescBy]
  | x :: xs => sorted_insertDescBy key x _ (sorted_sortDescBy key xs)

theorem mem_sortDescBy {α κ : Type} [LinearOrder κ] (key : α → κ) (a : α) :
    ∀ l : List α, a ∈ sortDescBy key l ↔ a ∈ l
  | [] => by simp [sortDescBy]
  | x :: xs => by
      simp [sortDescBy, mem_insertDescBy, mem_sortDescBy key a xs]

theorem alistLookup_upsert_self {κ α : Type} [BEq κ] [LawfulBEq κ]
    (l : List (κ × α)) (k : κ) (v : α) :
    alistLookup (alistUpsert l k v) k = some v := by
  simp [alistUpsert, alistLookup]

theorem alistLookup_remove_self {κ α : Type} [BEq κ] [LawfulBEq κ]
    (l : List (κ × α)) (k : κ) :
    alistLookup (alistRemove l k) k = none := by
  induction l with
  | nil => rfl
  | cons p t ih =>
      by_cases h : p.1 == k
      · simpa [alistRemove, List.filter, h] using ih
      · simpa [alistRemove, List.filter, h, alistLookup] using ih

theorem contains_filter_ne_self (l : List String) (k : String) :
    (l.filter (fun k' => !(k' == k))).contains k = false := by
  induction l with
  | nil => rfl
  | cons a t ih =>
      rw [List.filter_cons]
      by_cases h : a = k
      · subst h
        simp [ih]
      · simp [List.contains_cons, beq_iff_eq, h, Ne.symm h, ih]

theorem runCount_le_fuel (b : Behavior) :
    ∀ (fuel : Nat) (g : GraphNode) (s : AgentState), runCount b fuel g s ≤ fuel
  | 0, _, _ => Nat.le_refl 0
  | fuel + 1, g, s => by
      simp only [runCount]
      split
      · exact Nat.succ_le_succ (Nat.zero_le fuel)
      · rename_i g' hroute
        have h := runCount_le_fuel b fuel g' (mergeDelta s (nodeStep b g s))
        omega

theorem runCount_eq_fuel_of_error (b : Behavior) :
    ∀ (fuel : Nat) (g : GraphNode) (s : AgentState) (e : EngineError),
      runLoop b fuel g s = Except.error e → runCount b fuel g s = fuel
  | 0, _, _, _, _ => rfl
  | fuel + 1, g, s, e, h => by
      simp only [runLoop] at h
      simp only [runCount]
      split
      · rename_i hroute
        rw [hroute] at h
        exact absurd h (by simp)
      · rename_i g' hroute
        rw [hroute] at h
        rw [runCount_eq_fuel_of_error b fuel g' _ e h]
        omega

theorem runLoop_messages_grow (b : Behavior) :
    ∀ (fuel : Nat) (g : GraphNode) (s : AgentState) (r : AgentState),
      runLoop b fuel g s = Except.ok r → ∃ t, r.messages = s.messages ++ t
  | 0, _, _, _, h => by simp [runLoop] at h
  | fuel + 1, g, s, r, h => by
      simp only [runLoop] at h
      split at h
      · obtain rfl : mergeDelta s (nodeStep b g s) = r := by
          simpa using h
        exact ⟨(nodeStep b g s).messages, rfl⟩
      · obtain ⟨t, ht⟩ := runLoop_messages_grow b fuel _ _ r h
        exact ⟨(nodeStep b g s).messages ++ t, by simp [ht, mergeDelta]⟩

theorem runLoop_error_field_constant (b : Behavior)
    (hb : ∀ g s, (nodeStep b g s).error = none) :
    ∀ (fuel : Nat) (g : GraphNode) (s : AgentState) (r : AgentState),
      runLoop b fuel g s = Except.ok r → r.error = s.error
  | 0, _, _, _, h => by simp [runLoop] at h
  | fuel + 1, g, s, r, h => by
      have hmerge : (mergeDelta s (nodeStep b g s)).error = s.error := by
        simp [mergeDelta, hb g s]
      simp only [runLoop] at h
      split at h
      · obtain rfl : mergeDelta s (nodeStep b g s) = r := by
          simpa using h
        exact hmerge
      · rw [runLoop_error_field_constant b hb fuel _ _ r h, hmerge]

theorem mkBehavior_error_none (decision : IntakeDecision) (scanned : List RFP)
    (salesLLM technicalLLM : LLMResult) (requirements : SpecDict)
    (catalog : List Product) (loopBack : Bool) (pricingText : String) :
    ∀ (g : GraphNode) (s : AgentState),
      (nodeStep (mkBehavior decision scanned salesLLM technicalLLM requirements
        catalog loopBack pricingText) g s).error = none := by
  intro g s
  cases g with
  | main_agent =>
      cases decision <;> rfl
  | sales_agent =>
      simp only [nodeStep, mkBehavior, sales_agent_node]
      split
      · rfl
      · split
        · rfl
        · cases salesLLM <;> rfl
  | technical_agent =>
      simp only [nodeStep, mkBehavior, technical_agent_node]
      split
      · rfl
      · cases technicalLLM <;> rfl
  | pricing_agent => rfl

theorem syncSessionState_memory_cache (srv : ServerState) (sid : String) (d : Bool) :
    (syncSessionState srv sid d).memory.memory_cache = srv.memory.memory_cache := by
  cases d <;> simp [syncSessionState, saveAgentState]

theorem syncSessionState_messagesTable (srv : ServerState) (sid : String) (d : Bool) :
    (syncSessionState srv sid d).db.messagesTable = srv.db.messagesTable := by
  cases d <;> simp [syncSessionState, saveAgentState]

theorem saveAgentState_messagesTable (srv : ServerState) (sid : String) (st : AgentState) :
    (saveAgentState srv sid st).db.messagesTable = srv.db.messagesTable := rfl

theorem saveAgentState_memory_cache (srv : ServerState) (sid : String) (st : AgentState) :
    (saveAgentState srv sid st).memory.memory_cache = srv.memory.memory_cache := rfl

theorem messagesView_eq_of_cache (srv : ServerState) (sid : String) (m : List Message)
    (h : alistLookup srv.memory.memory_cache sid = some m) : messagesView srv sid = m := by
  simp [messagesView, getMemory, h]

theorem addUserMessage_messagesTable (srv : ServerState) (sid c : String) (d : Bool) :
    (addUserMessage srv sid c d).db.messagesTable =
      srv.db.messagesTable ++ [⟨sid, Role.user, c⟩] := by
  cases hm : alistLookup srv.memory.memory_cache sid with
  | some msgs => simp [addUserMessage, getMemory, hm, syncSessionState_messagesTable]
  | none => simp [addUserMessage, getMemory, hm, syncSessionState_messagesTable]

theorem addAiMessage_messagesTable (srv : ServerState) (sid c : String) (d : Bool) :
    (addAiMessage srv sid c d).db.messagesTable =
      srv.db.messagesTable ++ [⟨sid, Role.assistant, c⟩] := by
  cases hm : alistLookup srv.memory.memory_cache sid with
  | some msgs => simp [addAiMessage, getMemory, hm, syncSessionState_messagesTable]
  | none => simp [addAiMessage, getMemory, hm, syncSessionState_messagesTable]

theorem messagesView_addUserMessage (srv : ServerState) (sid c : String) (d : Bool) :
    messagesView (addUserMessage srv sid c d) sid =
      messagesView srv sid ++ [userMessage c] := by
  cases hm : alistLookup srv.memory.memory_cache sid with
  | some msgs =>
      rw [messagesView_eq_of_cache srv sid msgs hm]
      apply messagesView_eq_of_cache
      simp [addUserMessage, getMemory, hm, syncSessionState_memory_cache, alistLookup_upsert_self]
  | none =>
      have hview : messagesView srv sid = loadMessagesFromDb srv.db sid := by
        simp [messagesView, getMemory, hm]
      rw [hview]
      apply messagesView_eq_of_cache
      simp [addUserMessage, getMemory, hm, syncSessionState_memory_cache, alistLookup_upsert_self]

theorem messagesView_addAiMessage (srv : ServerState) (sid c : String) (d : Bool) :
    messagesView (addAiMessage srv sid c d) sid =
      messagesView srv sid ++ [assistantMessage c] := by
  cases hm : alistLookup srv.memory.memory_cache sid with
  | some msgs =>
      rw [messagesView_eq_of_cache srv sid msgs hm]
      apply messagesView_eq_of_cache
      simp [addAiMessage, getMemory, hm, syncSessionState_memory_cache, alistLookup_upsert_self]
  | none =>
      have hview : messagesView srv sid = loadMessagesFromDb srv.db sid := by
        simp [messagesView, getMemory, hm]
      rw [hview]
      apply messagesView_eq_of_cache
      simp [addAiMessage, getMemory, hm, syncSessionState_memory_cache, alistLookup_upsert_self]

/-! ## Concrete scenarios -/

/-- A well-formed mock RFP record. -/
def rfpEx : RFP :=
  { rfp_id := "RFP-2024-001"
    title := "11 kV XLPE Cable Supply"
    description := "Supply of 11 kV XLPE insulated copper cable"
    category := "Electrical"
    location := "Mumbai"
    tender_value := 5000000
    days_remaining := 40 }

/-- Behavior of a turn in which the intake routes to assessment while no RFP
has been selected. -/
def bNoSel : Behavior :=
  mkBehavior IntakeDecision.toAssessment [] (LLMResult.ok "formatted")
    (LLMResult.ok "analysis") [] [] false "pricing"

/-- Behavior of the `valuation → intake → assessment → valuation` cycle: the
intake always delegates to assessment and the valuation always loops back. -/
def bLoop : Behavior :=
  mkBehavior IntakeDecision.toAssessment [] (LLMResult.ok "formatted")
    (LLMResult.ok "analysis") [] [] true "pricing"

/-- Start state of the looping run: a selection is present, so the
assessment stage succeeds every time. -/
def s0loop : AgentState :=
  { create_initial_state "session-loop" "analyze it" with selected_rfp := some rfpEx }

/-! ## Claim theorems -/

/-- State whose latest delta carries the undeclared routing hint
`next_stage = discovery` (`sales_agent`) into the assessment stage's router. -/
def c1State : AgentState :=
  { create_initial_state "session-route" "x" with next_node := NodeName.sales_agent }

/-- C1 (counterexample): feeding the assessment stage's router a delta with
`next_stage = discovery` does not raise any `InvalidRouteError` — the routing
function `route_from_technical` returns a plain value, the `END` sentinel, so
the run terminates normally; the discovery stage is indeed not executed, but
no failure of any kind is produced (no such error type exists in the code). -/
theorem c1_router_counterexample :
    route_from_technical c1State = Target.terminal ∧
    route_from_technical c1State ≠ Target.node GraphNode.sales_agent :=
  ⟨rfl, by decide⟩

/-- C1 (amended): a routing function returns a registered node only for a
`next_stage` value in the stage's declared successor set (intake:
{discovery, assessment}; discovery: {}; assessment: {valuation}; valuation:
{intake}); every undeclared value falls through silently to `END` (TERMINAL),
so the undeclared stage is never executed — but no `InvalidRouteError` is
raised. -/
theorem router_undeclared_next_falls_through_to_terminal :
    ∀ (g : GraphNode) (s : AgentState),
      ((∃ g', routeFrom g s = Target.node g') → s.next_node ∈ declaredSuccessors g) ∧
      (s.next_node ∉ declaredSuccessors g → routeFrom g s = Target.terminal) := by
  intro g s
  cases g <;> cases h : s.next_node <;>
    simp [routeFrom, route_from_main, route_from_sales, route_from_technical,
      route_from_pricing, declaredSuccessors, h]

/-- State carrying another undeclared hint (`intake`) into the assessment
stage's router. -/
def c1WitnessState : AgentState :=
  { create_initial_state "session-route-w" "x" with next_node := NodeName.main_agent }

/-- C1 witness: the amended theorem applied at a concrete undeclared hint. -/
theorem router_undeclared_witness :
    routeFrom GraphNode.technical_agent c1WitnessState = Target.terminal :=
  (router_undeclared_next_falls_through_to_terminal GraphNode.technical_agent c1WitnessState).2
    (by decide)

/-- C2 (counterexample): with the valuation stage looping back to intake and
intake delegating to assessment (the cycle present in the compiled graph),
the engine performs 25 stage invocations — more than the claimed bound of
8 — before the recursion limit aborts the run with the recursion error
(`GraphRecursionError`), not a `RoutingLimitExceeded` routed to an ERROR
state. -/
theorem c2_step_bound_counterexample :
    engineRunCount bLoop s0loop = 25 ∧ 8 < engineRunCount bLoop s0loop ∧
    engineRun bLoop s0loop = Except.error EngineError.recursionLimitExceeded := by
  refine ⟨rfl, ?_, rfl⟩
  have h : engineRunCount bLoop s0loop = 25 := rfl
  rw [h]
  norm_num

/-- C2 (amended): the number of stage invocations in one engine run is
bounded by the executor's recursion limit — langgraph's default of 25, since
neither `create_workflow` nor the `ainvoke` config overrides it — and a run
that fails (rather than reaching TERMINAL) has consumed exactly that budget;
the loop always halts, but with an executor-level recursion error, not a
`RoutingLimitExceeded` routed to ERROR. -/
theorem engine_invocations_bounded_by_recursion_limit :
    ∀ (b : Behavior) (s : AgentState),
      engineRunCount b s ≤ RECURSION_LIMIT ∧
      (∀ e, engineRun b s = Except.error e → engineRunCount b s = RECURSION_LIMIT) :=
  fun b s =>
    ⟨runCount_le_fuel b RECURSION_LIMIT GraphNode.main_agent s,
     fun e h => runCount_eq_fuel_of_error b RECURSION_LIMIT GraphNode.main_agent s e h⟩

/-- Start state of a second looping run, used to exercise the bound theorem. -/
def s0loopW : AgentState :=
  { create_initial_state "session-loop-w" "go" with selected_rfp := some rfpEx }

/-- C2 witness: the bound theorem applied to the concrete looping run. -/
theorem engine_invocations_bounded_witness :
    engineRunCount bLoop s0loopW = RECURSION_LIMIT :=
  (engine_invocations_bounded_by_recursion_limit bLoop s0loopW).2
    EngineError.recursionLimitExceeded rfl

/-- C3 (counterexample): a run in which intake delegates to assessment while
no RFP is selected ends with `current_step = ERROR` while `error` is still
null — the claimed iff fails in the ERROR direction. -/
theorem c3_error_iff_counterexample :
    (engineRun bNoSel (create_initial_state "session-c3" "analyze rfp")).toOption.map
      (fun r => (r.current_step, r.error)) = some (WorkflowStep.ERROR, none) := rfl

/-- C3 (amended): no stage handler ever writes the `error` field, so after
every engine run that starts (as every fresh session does) with `error =
null`, the final state still has `error = null` — in particular a state with
`current_step = ERROR` carries a null `error`, and `ERROR ↔ error ≠ null`
fails; the stages report failures through assistant messages instead. -/
theorem engine_run_never_populates_error :
    ∀ (decision : IntakeDecision) (scanned : List RFP) (salesLLM technicalLLM : LLMResult)
      (requirements : SpecDict) (catalog : List Product) (loopBack : Bool) (pricingText : String)
      (fuel : Nat) (g : GraphNode) (s r : AgentState),
      s.error = none →
      runLoop (mkBehavior decision scanned salesLLM technicalLLM requirements catalog
        loopBack pricingText) fuel g s = Except.ok r →
      r.error = none := by
  intro dec scanned lS lT reqs cat lb pt fuel g s r hs hrun
  rw [runLoop_error_field_constant _ (mkBehavior_error_none dec scanned lS lT reqs cat lb pt)
    fuel g s r hrun]
  exact hs

/-- Final state of a concrete successful run used to exercise the `error`
preservation theorem. -/
def c3wFinal : AgentState :=
  (runLoop (mkBehavior IntakeDecision.toAssessment [] (LLMResult.ok "formatted")
      (LLMResult.ok "analysis") [] [] false "pricing") 25 GraphNode.main_agent
    (create_initial_state "session-c3w" "msg")).toOption.getD
      (create_initial_state "fallback" "fallback")

/-- C3 witness: the preservation theorem applied to a concrete run. -/
theorem engine_run_never_populates_error_witness : c3wFinal.error = none :=
  engine_run_never_populates_error IntakeDecision.toAssessment [] (LLMResult.ok "formatted")
    (LLMResult.ok "analysis") [] [] false "pricing" 25 GraphNode.main_agent
    (create_initial_state "session-c3w" "msg") c3wFinal rfl rfl

/-- C4 (counterexample): entering assessment with `selected_record` absent
does end the run with `current_step = ERROR` routed to TERMINAL, but the
`error` field is null, not non-empty — there is no `PreconditionError`; the
diagnostic lives only in the assistant message. -/
theorem c4_precondition_counterexample :
    (engineRun bNoSel (create_initial_state "session-c4" "please analyze")).toOption.map
      (fun r => (r.current_step, r.error, r.next_node)) =
      some (WorkflowStep.ERROR, none, NodeName.END) := rfl

/-- C4 (amended): with `selected_record` absent the assessment stage returns
a stage-level delta (not a crash) with `current_step = ERROR`, routing hint
`END`, a diagnostic assistant message, and the `error` field left unset; the
router then sends the run to TERMINAL.  With a selection present and the LLM
call succeeding, the stage sets `current_step = PRICING` and routes to the
valuation stage. -/
theorem assessment_precondition_behavior :
    ∀ (llm : LLMResult) (requirements : SpecDict) (catalog : List Product) (s : AgentState),
      (s.selected_rfp = none →
        (technical_agent_node llm requirements catalog s).current_step = some WorkflowStep.ERROR ∧
        (technical_agent_node llm requirements catalog s).next_node = some NodeName.END ∧
        (technical_agent_node llm requirements catalog s).error = none ∧
        (technical_agent_node llm requirements catalog s).messages =
          [assistantMessage "No RFP selected. Please select an RFP first."] ∧
        route_from_technical (mergeDelta s (technical_agent_node llm requirements catalog s)) =
          Target.terminal) ∧
      (∀ rfp content, s.selected_rfp = some rfp → llm = LLMResult.ok content →
        (technical_agent_node llm requirements catalog s).current_step = some WorkflowStep.PRICING ∧
        (technical_agent_node llm requirements catalog s).next_node = some NodeName.pricing_agent ∧
        route_from_technical (mergeDelta s (technical_agent_node llm requirements catalog s)) =
          Target.node GraphNode.pricing_agent) := by
  intro llm reqs cat s
  constructor
  · intro h
    simp [technical_agent_node, h, mergeDelta, route_from_technical]
  · intro rfp content hs hllm
    subst hllm
    simp [technical_agent_node, hs, mergeDelta, route_from_technical]

/-- A state about to enter assessment with no selection. -/
def c4wNoSel : AgentState := create_initial_state "session-c4w" "msg"

/-- A state about to enter assessment with a selection present. -/
def c4wSel : AgentState :=
  { create_initial_state "session-c4w2" "msg" with selected_rfp := some rfpEx }

/-- C4 witness: both branches of the amended theorem at concrete states. -/
theorem assessment_precondition_behavior_witness :
    (technical_agent_node (LLMResult.ok "analysis") [] [] c4wNoSel).current_step =
      some WorkflowStep.ERROR ∧
    (technical_agent_node (LLMResult.ok "analysis") [] [] c4wSel).current_step =
      some WorkflowStep.PRICING :=
  ⟨((assessment_precondition_behavior (LLMResult.ok "analysis") [] [] c4wNoSel).1 rfl).1,
   ((assessment_precondition_behavior (LLMResult.ok "analysis") [] [] c4wSel).2 rfpEx
      "analysis" rfl rfl).1⟩

/-- C6 (counterexample): a discovery execution whose scan returns no records
sets `current_step = COMPLETE`, not `WAITING_USER` — the claimed "for every
execution" fails. -/
theorem c6_discovery_counterexample :
    (sales_agent_node [] (LLMResult.ok "formatted")
        (create_initial_state "session-c6" "find tenders")).current_step =
      some WorkflowStep.COMPLETE ∧
    some WorkflowStep.COMPLETE ≠ some WorkflowStep.WAITING_USER :=
  ⟨rfl, by decide⟩

/-- C6 (amended): every execution of the discovery stage routes to TERMINAL
(its routing hint is `END` and `route_from_sales` is unconditionally `END`),
but `current_step = WAITING_USER` is set only when the scan produced records,
at least one qualified into the top list, and the formatting LLM call
succeeded; an empty scan or empty top list yields `COMPLETE`, and an LLM
failure yields `ERROR`. -/
theorem discovery_always_terminal_waiting_only_on_results :
    ∀ (scanned : List RFP) (llm : LLMResult) (s : AgentState),
      (sales_agent_node scanned llm s).next_node = some NodeName.END ∧
      route_from_sales (mergeDelta s (sales_agent_node scanned llm s)) = Target.terminal ∧
      (scanned = [] →
        (sales_agent_node scanned llm s).current_step = some WorkflowStep.COMPLETE) ∧
      (salesTop scanned = [] →
        (sales_agent_node scanned llm s).current_step = some WorkflowStep.COMPLETE) ∧
      (∀ content, llm = LLMResult.ok content → scanned ≠ [] → salesTop scanned ≠ [] →
        (sales_agent_node scanned llm s).current_step = some WorkflowStep.WAITING_USER ∧
        (sales_agent_node scanned llm s).rfps_identified = some (salesTop scanned)) ∧
      (∀ msg, llm = LLMResult.err msg → scanned ≠ [] → salesTop scanned ≠ [] →
        (sales_agent_node scanned llm s).current_step = some WorkflowStep.ERROR) := by
  intro scanned llm s
  refine ⟨?_, rfl, ?_, ?_, ?_, ?_⟩
  · simp only [sales_agent_node]
    split
    · rfl
    · split
      · rfl
      · cases llm <;> rfl
  · intro h
    subst h
    rfl
  · intro htop
    by_cases hsc : scanned = []
    · subst hsc
      rfl
    · have hne : scanned.isEmpty = false := by
        simpa [List.isEmpty_iff] using hsc
      simp [sales_agent_node, hne, htop]
  · intro content hllm hsc htop
    subst hllm
    have hne : scanned.isEmpty = false := by
      simpa [List.isEmpty_iff] using hsc
    have htopne : (salesTop scanned).isEmpty = false := by
      simpa [List.isEmpty_iff] using htop
    simp [sales_agent_node, hne, htopne]
  · intro msg hllm hsc htop
    subst hllm
    have hne : scanned.isEmpty = false := by
      simpa [List.isEmpty_iff] using hsc
    have htopne : (salesTop scanned).isEmpty = false := by
      simpa [List.isEmpty_iff] using htop
    simp [sales_agent_node, hne, htopne]

/-- C6 witness: the success branch at a concrete scan result that qualifies. -/
theorem discovery_always_terminal_witness :
    (sales_agent_node [rfpEx] (LLMResult.ok "top list")
        (create_initial_state "session-c6w" "find")).current_step =
      some WorkflowStep.WAITING_USER :=
  ((discovery_always_terminal_waiting_only_on_results [rfpEx] (LLMResult.ok "top list")
      (create_initial_state "session-c6w" "find")).2.2.2.2.1 "top list" rfl
    (by decide) (by decide)).1

theorem messagesView_congr (srv' srv : ServerState) (sid : String)
    (hm : srv'.memory.memory_cache = srv.memory.memory_cache) (hd : srv'.db = srv.db) :
    messagesView srv' sid = messagesView srv sid := by
  unfold messagesView getMemory
  rw [hm, hd]
  cases alistLookup srv.memory.memory_cache sid <;> rfl

theorem cache_lookup_addUserMessage (srv : ServerState) (sid c : String) (d : Bool) :
    alistLookup (addUserMessage srv sid c d).memory.memory_cache sid =
      some (messagesView srv sid ++ [userMessage c]) := by
  cases hm : alistLookup srv.memory.memory_cache sid with
  | some msgs =>
      rw [messagesView_eq_of_cache srv sid msgs hm]
      simp [addUserMessage, getMemory, hm, syncSessionState_memory_cache, alistLookup_upsert_self]
  | none =>
      have hview : messagesView srv sid = loadMessagesFromDb srv.db sid := by
        simp [messagesView, getMemory, hm]
      rw [hview]
      simp [addUserMessage, getMemory, hm, syncSessionState_memory_cache, alistLookup_upsert_self]

theorem cache_lookup_addAiMessage (srv : ServerState) (sid c : String) (d : Bool) :
    alistLookup (addAiMessage srv sid c d).memory.memory_cache sid =
      some (messagesView srv sid ++ [assistantMessage c]) := by
  cases hm : alistLookup srv.memory.memory_cache sid with
  | some msgs =>
      rw [messagesView_eq_of_cache srv sid msgs hm]
      simp [addAiMessage, getMemory, hm, syncSessionState_memory_cache, alistLookup_upsert_self]
  | none =>
      have hview : messagesView srv sid = loadMessagesFromDb srv.db sid := by
        simp [messagesView, getMemory, hm]
      rw [hview]
      simp [addAiMessage, getMemory, hm, syncSessionState_memory_cache, alistLookup_upsert_self]

/-- The stored state whose message log a later turn is claimed to preserve. -/
def stOldC5 : AgentState :=
  { create_initial_state "session-c5" "hello" with
      messages := [userMessage "hello", assistantMessage "hi there"] }

/-- A server whose durable store already holds `session-c5` with a two-entry
message log. -/
def srvC5 : ServerState :=
  { db := { sessions := [("session-c5", stOldC5)]
            messagesTable := [⟨"session-c5", Role.user, "hello"⟩,
                              ⟨"session-c5", Role.assistant, "hi there"⟩] }
    memory := { memory_cache := [], last_sync := [] }
    chat_sessions := [("session-c5", stOldC5)] }

/-- A turn whose intake stage replies directly and terminates. -/
def bC5 : Behavior :=
  mkBehavior (IntakeDecision.terminate "Understood.") [] (LLMResult.ok "x")
    (LLMResult.ok "y") [] [] false "p"

/-- C5 (counterexample): running the next turn for `session-c5` produces a
persisted state whose message list does NOT extend the loaded one — the
handler replaced the loaded `messages` with just the incoming user message,
so the loaded log is not a prefix of the result. -/
theorem c5_monotonic_log_counterexample :
    ((chatTurn bC5 srvC5 "session-c5" "pick RFP 1" false false).2.toOption.map
      (fun r => stOldC5.messages.isPrefixOf r.messages)) = some false := rfl

/-- C5 (amended): within one turn the logs only grow — the durable
chat-message table gains the incoming user row (and, on success, the
assistant row), the memory manager's per-session log is extended by the
incoming user message, and the persisted workflow state's message list starts
with the incoming user message followed by the run's appends.  Monotonicity
across turns fails only for the workflow state's `messages` field, which the
handler resets to the single incoming message instead of appending to the
loaded log. -/
theorem chat_turn_message_log_behavior :
    ∀ (b : Behavior) (srv : ServerState) (sid text : String) (d1 d2 : Bool),
      (∃ tail, (chatTurn b srv sid text d1 d2).1.db.messagesTable =
        srv.db.messagesTable ++ tail) ∧
      (∃ tail, messagesView (chatTurn b srv sid text d1 d2).1 sid =
        messagesView srv sid ++ userMessage text :: tail) ∧
      (∀ r, (chatTurn b srv sid text d1 d2).2 = Except.ok r →
        ∃ t, r.messages = userMessage text :: t) := by
  intro b srv sid text d1 d2
  set st0 := (match loadAgentState srv.db sid with
      | some st => { st with messages := [userMessage text] }
      | none => create_initial_state sid text) with hst0
  have hstart : st0.messages = [userMessage text] := by
    rw [hst0]
    cases loadAgentState srv.db sid <;> rfl
  have hchat : chatTurn b srv sid text d1 d2 =
      (match engineRun b st0 with
       | Except.error e => (addUserMessage srv sid text d1, Except.error e)
       | Except.ok result =>
           let srv2 := addAiMessage (addUserMessage srv sid text d1) sid
             (get_last_ai_message_content result) d2
           let srv3 := saveAgentState srv2 sid result
           ({ srv3 with chat_sessions := alistUpsert srv3.chat_sessions sid result },
             Except.ok result)) := rfl
  cases hrun : engineRun b st0 with
  | error e =>
      rw [hchat, hrun]
      refine ⟨⟨[⟨sid, Role.user, text⟩], ?_⟩, ⟨[], ?_⟩, ?_⟩
      · exact addUserMessage_messagesTable srv sid text d1
      · rw [messagesView_addUserMessage]
      · intro r hr
        simp at hr
  | ok result =>
      rw [hchat, hrun]
      dsimp only
      refine ⟨⟨[⟨sid, Role.user, text⟩, ⟨sid, Role.assistant, get_last_ai_message_content result⟩], ?_⟩,
        ⟨[assistantMessage (get_last_ai_message_content result)], ?_⟩, ?_⟩
      · rw [saveAgentState_messagesTable, addAiMessage_messagesTable,
          addUserMessage_messagesTable]
        simp
      · set srv3 := saveAgentState (addAiMessage (addUserMessage srv sid text d1) sid
          (get_last_ai_message_content result) d2) sid result with hsrv3
        have hl : alistLookup srv3.memory.memory_cache sid =
            some (messagesView srv sid ++ [userMessage text] ++
              [assistantMessage (get_last_ai_message_content result)]) := by
          rw [hsrv3, saveAgentState_memory_cache, cache_lookup_addAiMessage,
            messagesView_addUserMessage]
        rw [messagesView_congr
          { db := srv3.db, memory := srv3.memory,
            chat_sessions := alistUpsert srv3.chat_sessions sid result } srv3 sid rfl rfl]
        rw [messagesView_eq_of_cache srv3 sid _ hl]
        simp
      · intro r hr
        simp only [Except.ok.injEq] at hr
        obtain ⟨t, ht⟩ := runLoop_messages_grow b RECURSION_LIMIT GraphNode.main_agent st0
          result hrun
        refine ⟨t, ?_⟩
        rw [← hr, ht, hstart]
        rfl

/-- A fresh server with no stored sessions. -/
def srvC5w : ServerState :=
  { db := { sessions := [], messagesTable := [] }
    memory := { memory_cache := [], last_sync := [] }
    chat_sessions := [] }

/-- The state persisted by a concrete successful turn. -/
def c5wResult : AgentState :=
  ((chatTurn bC5 srvC5w "session-c5w" "hello there" false false).2).toOption.getD
    (create_initial_state "fallback2" "fallback2")

/-- C5 witness: the amended theorem applied to a concrete turn — the
persisted state's message list starts with the incoming user message. -/
theorem chat_turn_message_log_witness :
    c5wResult.messages.head? = some (userMessage "hello there") := by
  obtain ⟨t, ht⟩ := (chat_turn_message_log_behavior bC5 srvC5w "session-c5w" "hello there"
    false false).2.2 c5wResult rfl
  rw [ht]
  rfl

/-- A session present in the durable store, the memory cache, and the
in-memory session dict. -/
def stC7 : AgentState := create_initial_state "session-c7" "hello"

def srvC7 : ServerState :=
  { db := { sessions := [("session-c7", stC7)]
            messagesTable := [⟨"session-c7", Role.user, "hello"⟩] }
    memory := { memory_cache := [("session-c7", [userMessage "hello"])]
                last_sync := ["session-c7"] }
    chat_sessions := [("session-c7", stC7)] }

/-- C7 (counterexample): after the session-clear operation the durable State
Store still returns the session's workflow state — only the in-memory caches
were cleared, so a subsequent load does find state. -/
theorem c7_clear_session_counterexample :
    loadAgentState (clearSessionEndpoint srvC7 "session-c7").db "session-c7" = some stC7 ∧
    some stC7 ≠ (none : Option AgentState) :=
  ⟨rfl, by simp⟩

/-- C7 (amended): the session-clear operation removes the session from every
in-memory cache (`memory_cache`, `last_sync`, `chat_sessions`) but leaves the
durable store untouched, so a subsequent durable load still finds the state. -/
theorem clear_session_clears_caches_not_store :
    ∀ (srv : ServerState) (sid : String),
      alistLookup (clearSessionEndpoint srv sid).memory.memory_cache sid = none ∧
      alistLookup (clearSessionEndpoint srv sid).chat_sessions sid = none ∧
      (clearSessionEndpoint srv sid).memory.last_sync.contains sid = false ∧
      (clearSessionEndpoint srv sid).db = srv.db := by
  intro srv sid
  refine ⟨?_, ?_, ?_, rfl⟩
  · exact alistLookup_remove_self srv.memory.memory_cache sid
  · exact alistLookup_remove_self srv.chat_sessions sid
  · exact contains_filter_ne_self srv.memory.last_sync sid

/-- C8 (confirmed): the `get_state` handler reads the in-memory session dict
and performs no write, so consecutive invocations without an intervening turn
return identical results and leave the server state unchanged. -/
theorem get_state_idempotent_read_only :
    ∀ (srv : ServerState) (sid : String),
      (getStateEndpoint ((getStateEndpoint srv sid).2) sid).1 = (getStateEndpoint srv sid).1 ∧
      (getStateEndpoint srv sid).2 = srv :=
  fun _ _ => ⟨rfl, rfl⟩

/-- C9 (confirmed): `qualify_rfp_tool` reports `qualified` exactly when the
summed score reaches 60, and a record below the minimum remaining days
(timeline points 0) is still qualified whenever its value and location points
alone total at least 60 — the final threshold assignment overwrites the
earlier disqualification. -/
theorem qualified_iff_score_threshold :
    ∀ (rfp : RFP) (criteria : Criteria),
      (qualify_rfp_tool rfp criteria).qualified =
        decide ((qualify_rfp_tool rfp criteria).score ≥ 60) ∧
      (rfp.days_remaining < criteria.min_days_remaining →
        (valueAssessment rfp.tender_value criteria.min_tender_value).1 +
          (locationAssessment rfp.location criteria.preferred_locations).1 ≥ 60 →
        (qualify_rfp_tool rfp criteria).qualified = true) := by
  intro rfp criteria
  constructor
  · rfl
  · intro hdays hsum
    have htl : (timelineAssessment rfp.days_remaining criteria.min_days_remaining).1 = 0 := by
      simp [timelineAssessment, hdays]
    have hq : (qualify_rfp_tool rfp criteria).qualified =
        decide ((timelineAssessment rfp.days_remaining criteria.min_days_remaining).1 +
          (valueAssessment rfp.tender_value criteria.min_tender_value).1 +
          (locationAssessment rfp.location criteria.preferred_locations).1 ≥ 60) := rfl
    rw [hq, htl]
    simp only [decide_eq_true_eq]
    omega

/-- A tender whose deadline has arrived (`days_remaining = 0`, below the
default minimum of 7) but whose value and location points total 70. -/
def rfpC9 : RFP :=
  { rfp_id := "RFP-SHORT"
    title := "EHV Cable"
    description := "440 kV cable"
    category := "Electrical"
    location := "Delhi"
    tender_value := 10000000
    days_remaining := 0 }

def critC9 : Criteria := {}

/-- C9 witness: the concrete below-minimum-days tender is still qualified. -/
theorem qualified_iff_score_threshold_witness :
    (qualify_rfp_tool rfpC9 critC9).qualified = true ∧
    rfpC9.days_remaining < critC9.min_days_remaining :=
  ⟨(qualified_iff_score_threshold rfpC9 critC9).2 (by decide) (by decide), by decide⟩

theorem score_catalog_product_le (product : Product) (reqs : SpecDict) :
    (score_catalog_product product reqs).match_score_tenths ≤ 1000 := by
  have h : (SPEC_FIELDS.countP (fun f => isMatchOn (dictGet reqs f)
      (derive_product_field product.specifications f))) ≤ 8 :=
    List.countP_le_length _
  show (SPEC_FIELDS.countP (fun f => isMatchOn (dictGet reqs f)
      (derive_product_field product.specifications f))) * 125 ≤ 1000
  omega

/-- C10 (confirmed): `match_oem_products` returns at most `top_n` entries in
non-increasing `match_score` order, every score lies between 0 and 100 (at
most 1000 tenths of a percent — the count of matching fields out of 8 scaled
to percent), and an absent (`None`) requirement never counts as a match, even
against a product value that is also `None`. -/
theorem match_products_ranked_and_bounded :
    ∀ (catalog : List Product) (requirements : SpecDict) (top_n : Nat),
      (match_oem_products catalog requirements top_n).length ≤ top_n ∧
      List.Sorted (fun a b => b.match_score_tenths ≤ a.match_score_tenths)
        (match_oem_products catalog requirements top_n) ∧
      (∀ p, p ∈ match_oem_products catalog requirements top_n →
        p.match_score_tenths ≤ 1000) ∧
      (∀ spec, isMatchOn PyVal.vnone spec = false) := by
  intro catalog reqs n
  refine ⟨?_, ?_, ?_, fun spec => rfl⟩
  · simp only [match_oem_products]
    exact List.length_take_le n _
  · simp only [match_oem_products]
    exact List.Pairwise.sublist (List.take_sublist n _)
      (sorted_sortDescBy (fun p : ScoredProduct => p.match_score_tenths) _)
  · intro p hp
    simp only [match_oem_products] at hp
    have hp2 := List.mem_of_mem_take hp
    rw [mem_sortDescBy] at hp2
    obtain ⟨q, hq, rfl⟩ := List.mem_map.mp hp2
    exact score_catalog_product_le q reqs

/-- A concrete catalog product. -/
def prodC10 : Product :=
  { sku := "SKU-XLPE-11"
    product_name := "XLPE 11 kV cable"
    specifications := [(SpecField.insulation, PyVal.vstr "XLPE")] }

/-- C10 witness: the bound theorem applied to a concrete catalog whose single
product is a member of the returned ranking. -/
theorem match_products_ranked_witness :
    (score_catalog_product prodC10 []).match_score_tenths ≤ 1000 :=
  (match_products_ranked_and_bounded [prodC10] [] 3).2.2.1
    (score_catalog_product prodC10 []) (by decide)
